import Mathlib

/-!
Verification of the KIAUH interactive menu-framework core, shallowly embedded
from `kiauh/core/menus/base_menu.py` and `kiauh/core/menus/advanced_menu.py`.

Python menu instances become a `MenuState` record; the `Option` union of
`base_menu.py` line 95 becomes the inductive `MenuOption`; the per-menu run
loop becomes a fuelled interpreter `runMenu` over a list of input lines, with
`sys.exit(0)` embedded as a distinguished `Outcome.processExit` that unwinds
every nested loop.
-/

namespace Kiauh

/-- Footer kinds of a menu. `QUIT`, `BACK` and `BACK_HELP` are the three
recognized kinds (quit-only, back-only, back+help). The fourth case
`UNRECOGNIZED` is Modelled from the spec: the enumeration itself lives in
`core/menus/__init__.py`, which is outside the excerpt, and the spec's error
taxonomy ("a concrete menu declares a footer kind the renderer does not
recognize") contemplates footer-kind values beyond the three recognized ones;
this case stands for any such value. -/
inductive FooterType where
  | QUIT
  | BACK
  | BACK_HELP
  | UNRECOGNIZED
deriving DecidableEq

/-- Modelled from the spec: `NAVI_OPTIONS` from `core/menus/__init__.py` is not
in the excerpt. Per the spec, navigation tokens are "b" for back, "q" for quit,
"h" for help, and their legality is gated per-menu by the footer kind, matching
the rendered footer variants (quit-only shows only Quit; back-only shows only
Back; back+help shows Back and Help). An unrecognized footer kind has no entry
in the mapping. -/
def NAVI_OPTIONS : FooterType → Option (List String)
  | FooterType.QUIT => some ["q"]
  | FooterType.BACK => some ["b"]
  | FooterType.BACK_HELP => some ["b", "h"]
  | FooterType.UNRECOGNIZED => none

/-- The `Option` union of `base_menu.py` line 95:
`Option = Union[Callable, Type["BaseMenu"], "BaseMenu"]` — a zero-argument
callable, a menu type requiring instantiation, or a pre-built menu instance.
Callables, menu types and menu instances are identified by opaque numerals. -/
inductive MenuOption where
  | callable (a : Nat)
  | menuType (t : Nat)
  | menuInstance (i : Nat)
deriving DecidableEq

/-- The state of one `BaseMenu` instance (`base_menu.py` lines 99-106): the
option table, the optional default option, the footer kind, the back-reference
`previous_menu` and the header flag. `id` identifies the instance so that
`previous_menu`, an object reference in Python, can be embedded as an id. -/
structure MenuState where
  id : Nat
  options : List (String × MenuOption)
  default_option : Option MenuOption
  footer_type : FooterType
  previous_menu : Option Nat
  header : Bool
deriving DecidableEq

/-- Result of `BaseMenu.validate_user_input` (`base_menu.py` line 133): an
`Option`, a navigation-token string, or Python `None`. -/
inductive ValidationResult where
  | nav (s : String)
  | opt (o : MenuOption)
  | none
deriving DecidableEq

/-- Python `str.lower()`. Menu tokens are ASCII; lowercasing maps each
character through `Char.toLower`. (`String.toLower` from the library is
definitionally opaque to the kernel, so the map is spelled out over the
character list to keep every theorem checkable by evaluation.) -/
def pyLower (s : String) : String :=
  String.mk (s.data.map Char.toLower)

/-- Python `==` between a value of the annotated `Option` union (a callable, a
menu type or a menu instance) and the string `""` is always `False`, as is
`None == ""`; so line 150's `option == ""` sub-expression never holds on the
values `options.get` can produce under the declared types. -/
def optionEqEmptyStr : Option MenuOption → Bool
  | _ => false

/-- `return self.default_option` (`base_menu.py` line 151): Python returns the
attribute, which is `None` when no default option is configured. -/
def defaultToResult : Option MenuOption → ValidationResult
  | Option.none => ValidationResult.none
  | some o => ValidationResult.opt o

/-- `BaseMenu.validate_user_input` (`base_menu.py` lines 133-157). The guard on
line 150 parses as `option is None or (option == "" and default is not None)`
because Python `and` binds tighter than `or`. The final `return None` on line
157 is kept as the fall-through arm. -/
def validate_user_input (m : MenuState) (raw : String) : ValidationResult :=
  let usr_input := pyLower raw
  let option : Option MenuOption := m.options.lookup usr_input
  let is_valid_navigation : Bool := (NAVI_OPTIONS m.footer_type).isSome
  let user_navigated : Bool := decide (usr_input ∈ (NAVI_OPTIONS m.footer_type).getD [])
  if is_valid_navigation && user_navigated then
    ValidationResult.nav usr_input
  else if option.isNone || (optionEqEmptyStr option && m.default_option.isSome) then
    defaultToResult m.default_option
  else
    match option with
    | some o => ValidationResult.opt o
    | Option.none => ValidationResult.none

/-- A value `handle_user_input` can hand to the run loop (`base_menu.py` line
159, return type `Union[Option, str]`): either a navigation-token string or an
`Option` — never Python `None`, which the handler loops away. -/
inductive ValidatedInput where
  | nav (s : String)
  | opt (o : MenuOption)
deriving DecidableEq

/-- `BaseMenu.handle_user_input` (`base_menu.py` lines 159-169) over a list of
pending input lines. Each line is lowered (line 163) and validated; a `None`
validation prints "Invalid input!" through the Logger and reprompts, consuming
the next line; a non-`None` validation is returned together with the unread
lines. `Option.none` in the first component means the input list was exhausted
while the Python loop would still be blocked reading the terminal. -/
def handle_user_input (m : MenuState) : List String → Option ValidatedInput × List String
  | [] => (Option.none, [])
  | i :: rest =>
    match validate_user_input m (pyLower i) with
    | ValidationResult.nav s => (some (ValidatedInput.nav s), rest)
    | ValidationResult.opt o => (some (ValidatedInput.opt o), rest)
    | ValidationResult.none => handle_user_input m rest

/-- Python `choice == "s"` where `choice : Union[Option, str]` (`base_menu.py`
lines 177 and 180): true exactly when `choice` is that very string; comparing a
callable, a menu type or a menu instance with a string yields `False`. -/
def choiceEqStr : ValidatedInput → String → Bool
  | ValidatedInput.nav s, t => s = t
  | ValidatedInput.opt _, _ => false

/-- The farewell message printed by the quit branch (`base_menu.py` line 178). -/
def happyMsg : String := "###### Happy printing!"

/-- What one iteration of `BaseMenu.run` does with the choice delivered by
`handle_user_input` (`base_menu.py` lines 177-183): quit exits the whole
process with status 0 after `Logger.print_ok` of the farewell message; back
returns from `run`; anything else is passed to `execute_option`. -/
inductive StepAct where
  | exitProcess (status : Nat) (farewell : String)
  | returnToCaller
  | execute (choice : ValidatedInput)
deriving DecidableEq

/-- The branch structure of the `run` loop body (`base_menu.py` lines 177-183). -/
def run_step (choice : ValidatedInput) : StepAct :=
  if choiceEqStr choice "q" then StepAct.exitProcess 0 happyMsg
  else if choiceEqStr choice "b" then StepAct.returnToCaller
  else StepAct.execute choice

/-- Effect of `BaseMenu.execute_option` (`base_menu.py` lines 185-194) on its
argument, as seen by the run loop. -/
inductive ExecEffect where
  | raiseNotImplemented
  | navigateType (t : Nat)
  | navigateInstance (i : Nat)
  | call (a : Nat)
  | silentIgnore
deriving DecidableEq

/-- `BaseMenu.execute_option` (`base_menu.py` lines 185-194). `None` raises
`NotImplementedError` (line 187); a Menu subclass type navigates with
instantiation (line 190); a Menu instance navigates without (line 192); a
callable is invoked (line 194); any other value — e.g. the navigation string
"h" forwarded by `run`, which is not a type, not a `BaseMenu` and not
callable — falls through every branch and the method returns `None` silently. -/
def execute_option : Option ValidatedInput → ExecEffect
  | Option.none => ExecEffect.raiseNotImplemented
  | some (ValidatedInput.opt (MenuOption.menuType t)) => ExecEffect.navigateType t
  | some (ValidatedInput.opt (MenuOption.menuInstance i)) => ExecEffect.navigateInstance i
  | some (ValidatedInput.opt (MenuOption.callable a)) => ExecEffect.call a
  | some (ValidatedInput.nav _) => ExecEffect.silentIgnore

/-- The menu graph surrounding a run: how a menu type instantiates
(`menu() if instantiate else menu`, `base_menu.py` line 204) and which state a
pre-built menu instance carries. Both may set any `previous_menu` default of
their own. Callables are opaque actions that return without touching the
caller's loop. -/
structure Env where
  menuOfType : Nat → MenuState
  menuOfId : Nat → MenuState

/-- `BaseMenu.navigate_to_menu`, stamping part (`base_menu.py` lines 196-206):
after resolving `menu = menu() if instantiate else menu`, the sub-menu's
`previous_menu` is assigned the calling instance (`menu.previous_menu = self`,
line 205) and only then is `menu.run()` entered. The result is the exact state
the sub-menu's run loop starts from. -/
def navigate_to_menu (self sub : MenuState) : MenuState :=
  { sub with previous_menu := some self.id }

/-- How a menu's `run` can end, seen from its caller. `processExit` is
`sys.exit(0)` (line 179): it unwinds every enclosing run loop, carrying the
exit status and the farewell message printed just before. `backToCaller` is the
plain `return` of the back branch (line 181). `raisedError` stands for a
`NotImplementedError` escaping `execute_option`. `stuck` means fuel or input
lines ran out while the Python process would still be looping or blocked on a
read. -/
inductive Outcome where
  | backToCaller
  | processExit (status : Nat) (farewell : String)
  | raisedError
  | stuck
deriving DecidableEq

/-- The fuelled interpreter for `BaseMenu.run` (`base_menu.py` lines 171-183)
over a list of input lines. Each iteration displays the menu (rendering is pure
output and not tracked), lets `handle_user_input` consume lines until one
validates, and acts on the choice per `run_step`; dispatching a sub-menu
recurses into the stamped sub-menu state and resumes this menu's loop when the
sub-menu returns `backToCaller`, while `processExit` from any depth propagates
unchanged (Python `sys.exit` unwinds the whole stack). Callables and silently
ignored choices return control to the same menu's loop, which redisplays and
reads again. -/
def runMenu (env : Env) : Nat → MenuState → List String → Outcome × List String
  | 0, _, ins => (Outcome.stuck, ins)
  | fuel + 1, m, ins =>
    match handle_user_input m ins with
    | (Option.none, rest) => (Outcome.stuck, rest)
    | (some choice, rest) =>
      match run_step choice with
      | StepAct.exitProcess s f => (Outcome.processExit s f, rest)
      | StepAct.returnToCaller => (Outcome.backToCaller, rest)
      | StepAct.execute c =>
        match execute_option (some c) with
        | ExecEffect.raiseNotImplemented => (Outcome.raisedError, rest)
        | ExecEffect.call _ => runMenu env fuel m rest
        | ExecEffect.silentIgnore => runMenu env fuel m rest
        | ExecEffect.navigateType t =>
          match runMenu env fuel (navigate_to_menu m (env.menuOfType t)) rest with
          | (Outcome.backToCaller, rest2) => runMenu env fuel m rest2
          | (Outcome.processExit s f, rest2) => (Outcome.processExit s f, rest2)
          | (Outcome.raisedError, rest2) => (Outcome.raisedError, rest2)
          | (Outcome.stuck, rest2) => (Outcome.stuck, rest2)
        | ExecEffect.navigateInstance i =>
          match runMenu env fuel (navigate_to_menu m (env.menuOfId i)) rest with
          | (Outcome.backToCaller, rest2) => runMenu env fuel m rest2
          | (Outcome.processExit s f, rest2) => (Outcome.processExit s f, rest2)
          | (Outcome.raisedError, rest2) => (Outcome.raisedError, rest2)
          | (Outcome.stuck, rest2) => (Outcome.stuck, rest2)

/-- The three canned footers (`base_menu.py` lines 51-92), as render tokens;
their string formatting is peripheral glue per the spec and not modelled. -/
inductive FooterRender where
  | quitFooter
  | backFooter
  | backHelpFooter
deriving DecidableEq

/-- `BaseMenu.print_footer` (`base_menu.py` lines 116-124): one canned footer
per recognized footer kind, `NotImplementedError` otherwise (line 124). -/
def print_footer (ft : FooterType) : Except String FooterRender :=
  match ft with
  | FooterType.QUIT => Except.ok FooterRender.quitFooter
  | FooterType.BACK => Except.ok FooterRender.backFooter
  | FooterType.BACK_HELP => Except.ok FooterRender.backHelpFooter
  | FooterType.UNRECOGNIZED =>
    Except.error "Method for printing footer not implemented."

/-- A Python menu class as the instantiation machinery sees it: whether the
class is the abstract base `BaseMenu` itself, and whether it implements the
abstract hook `print_menu`. -/
structure MenuClass where
  isAbstractBase : Bool
  implementsPrintMenu : Bool
deriving DecidableEq

/-- Instantiating a menu class. `BaseMenu` is an `ABC` with the abstract method
`print_menu` (`base_menu.py` lines 99, 112-114), so Python refuses to
instantiate it or any subclass that leaves `print_menu` abstract; additionally
`BaseMenu.__init__` raises `NotImplementedError("BaseMenu cannot be
instantiated directly.")` when `type(self) is BaseMenu` (lines 108-110). A
concrete subclass implementing the hook constructs normally (its `__init__`
calls `super().__init__()`, where the `type(self) is BaseMenu` guard does not
fire). -/
def instantiateMenuClass (c : MenuClass) : Except String Unit :=
  if c.isAbstractBase then Except.error "BaseMenu cannot be instantiated directly."
  else if c.implementsPrintMenu then Except.ok ()
  else Except.error "abstract method print_menu is not implemented"

/-- The abstract base class itself: it is `BaseMenu` and `print_menu` is only
declared `@abstractmethod`, never implemented (`base_menu.py` lines 112-114). -/
def BaseMenuClass : MenuClass :=
  ⟨true, false⟩

/-- `AdvancedMenu` (`advanced_menu.py` lines 26-65): a concrete subclass whose
`print_menu` is implemented (lines 45-65). -/
def AdvancedMenuClass : MenuClass :=
  ⟨false, true⟩

/-- Concrete sub-menu whose constructor sets a static `previous_menu` default
(99) that navigation must overwrite. -/
def subMenuWithDefault : MenuState :=
  ⟨11, [], Option.none, FooterType.BACK, some 99, true⟩

/-- Concrete caller menu (id 10) dispatching option "1" to a menu type and
option "2" to a pre-built menu instance. -/
def parentMenu : MenuState :=
  ⟨10, [("1", MenuOption.menuType 0), ("2", MenuOption.menuInstance 5)], Option.none,
    FooterType.BACK, Option.none, true⟩

/-- Concrete menu graph where every menu type instantiates to
`subMenuWithDefault` and every instance id denotes it as well. -/
def demoEnv : Env :=
  ⟨fun _ => subMenuWithDefault, fun _ => subMenuWithDefault⟩

/-- Concrete quit-only sub-menu for the nested-quit scenario. -/
def quitSubMenu : MenuState :=
  ⟨21, [], Option.none, FooterType.QUIT, Option.none, true⟩

/-- Concrete caller of `quitSubMenu` (option "1" dispatches the sub-menu). -/
def quitParentMenu : MenuState :=
  ⟨20, [("1", MenuOption.menuType 0)], Option.none, FooterType.BACK, Option.none, true⟩

/-- Menu graph for the nested-quit scenario. -/
def quitEnv : Env :=
  ⟨fun _ => quitSubMenu, fun _ => quitSubMenu⟩

/-- Concrete menu for the back/dispatch scenario: "3" is an action, "1" a
sub-menu type. -/
def loopMenu : MenuState :=
  ⟨30, [("3", MenuOption.callable 3), ("1", MenuOption.menuType 0)], Option.none,
    FooterType.BACK, Option.none, true⟩

/-- Menu graph for the back/dispatch scenario. -/
def loopEnv : Env :=
  ⟨fun _ => subMenuWithDefault, fun _ => subMenuWithDefault⟩

/-- Inversion for the quit branch of the `run` loop body: the only `StepAct`
carrying a process exit is produced by the string choice "q", with status 0 and
the farewell message. -/
theorem run_step_exit_inv {c : ValidatedInput} {s : Nat} {f : String}
    (h : run_step c = StepAct.exitProcess s f) :
    c = ValidatedInput.nav "q" ∧ s = 0 ∧ f = happyMsg := by
  cases c with
  | nav u =>
    by_cases hq : u = "q"
    · subst hq
      have hq2 : run_step (ValidatedInput.nav "q") = StepAct.exitProcess 0 happyMsg := rfl
      rw [hq2] at h
      cases h
      exact ⟨rfl, rfl, rfl⟩
    · by_cases hb : u = "b" <;>
        simp [run_step, choiceEqStr, hq, hb] at h
  | opt o =>
    simp [run_step, choiceEqStr] at h

/-- One unfolding of `runMenu` when the next validated choice is "q". -/
theorem runMenu_step_quit (env : Env) (fuel : Nat) (m : MenuState)
    (ins rest : List String)
    (h : handle_user_input m ins = (some (ValidatedInput.nav "q"), rest)) :
    runMenu env (fuel + 1) m ins = (Outcome.processExit 0 happyMsg, rest) := by
  conv_lhs => rw [runMenu]
  rw [h]
  rfl

/-- One unfolding of `runMenu` when the next validated choice is "b". -/
theorem runMenu_step_back (env : Env) (fuel : Nat) (m : MenuState)
    (ins rest : List String)
    (h : handle_user_input m ins = (some (ValidatedInput.nav "b"), rest)) :
    runMenu env (fuel + 1) m ins = (Outcome.backToCaller, rest) := by
  conv_lhs => rw [runMenu]
  rw [h]
  rfl

/-- One unfolding of `runMenu` when the next validated choice is a callable
option: the action runs and the same menu loops on the remaining input. -/
theorem runMenu_step_call (env : Env) (fuel : Nat) (m : MenuState)
    (ins rest : List String) (a : Nat)
    (h : handle_user_input m ins =
      (some (ValidatedInput.opt (MenuOption.callable a)), rest)) :
    runMenu env (fuel + 1) m ins = runMenu env fuel m rest := by
  conv_lhs => rw [runMenu]
  rw [h]
  rfl

/-- One unfolding of `runMenu` when the next validated choice is a menu type:
the loop recurses into the stamped, freshly instantiated sub-menu. -/
theorem runMenu_step_navType (env : Env) (fuel : Nat) (m : MenuState)
    (ins rest : List String) (t : Nat)
    (h : handle_user_input m ins =
      (some (ValidatedInput.opt (MenuOption.menuType t)), rest)) :
    runMenu env (fuel + 1) m ins =
      match runMenu env fuel (navigate_to_menu m (env.menuOfType t)) rest with
      | (Outcome.backToCaller, rest2) => runMenu env fuel m rest2
      | (Outcome.processExit s f, rest2) => (Outcome.processExit s f, rest2)
      | (Outcome.raisedError, rest2) => (Outcome.raisedError, rest2)
      | (Outcome.stuck, rest2) => (Outcome.stuck, rest2) := by
  conv_lhs => rw [runMenu]
  rw [h]
  rfl

/-- One unfolding of `runMenu` when the next validated choice is a pre-built
menu instance: the loop recurses into the stamped instance state. -/
theorem runMenu_step_navInstance (env : Env) (fuel : Nat) (m : MenuState)
    (ins rest : List String) (i : Nat)
    (h : handle_user_input m ins =
      (some (ValidatedInput.opt (MenuOption.menuInstance i)), rest)) :
    runMenu env (fuel + 1) m ins =
      match runMenu env fuel (navigate_to_menu m (env.menuOfId i)) rest with
      | (Outcome.backToCaller, rest2) => runMenu env fuel m rest2
      | (Outcome.processExit s f, rest2) => (Outcome.processExit s f, rest2)
      | (Outcome.raisedError, rest2) => (Outcome.raisedError, rest2)
      | (Outcome.stuck, rest2) => (Outcome.stuck, rest2) := by
  conv_lhs => rw [runMenu]
  rw [h]
  rfl

/-- A sub-menu dispatched by type that returns `backToCaller` hands control
back to the calling menu's own loop. -/
theorem runMenu_navType_back (env : Env) (fuel : Nat) (m : MenuState)
    (ins rest rest2 : List String) (t : Nat)
    (h : handle_user_input m ins =
      (some (ValidatedInput.opt (MenuOption.menuType t)), rest))
    (hsub : runMenu env fuel (navigate_to_menu m (env.menuOfType t)) rest =
      (Outcome.backToCaller, rest2)) :
    runMenu env (fuel + 1) m ins = runMenu env fuel m rest2 := by
  rw [runMenu_step_navType env fuel m ins rest t h, hsub]


/-- A process exit produced inside a sub-menu dispatched by type propagates
unchanged through the calling menu's loop. -/
theorem runMenu_navType_exit (env : Env) (fuel : Nat) (m : MenuState)
    (ins rest rest2 : List String) (t s : Nat) (f : String)
    (h : handle_user_input m ins =
      (some (ValidatedInput.opt (MenuOption.menuType t)), rest))
    (hsub : runMenu env fuel (navigate_to_menu m (env.menuOfType t)) rest =
      (Outcome.processExit s f, rest2)) :
    runMenu env (fuel + 1) m ins = (Outcome.processExit s f, rest2) := by
  rw [runMenu_step_navType env fuel m ins rest t h, hsub]

/-- Any process exit the interpreter can produce, at any nesting depth, has
exit status 0 and the farewell message: the quit branch is the only code path
that terminates the process. -/
theorem runMenu_exit_inv (env : Env) :
    ∀ (fuel : Nat) (m : MenuState) (ins rest : List String) (s : Nat) (f : String),
      runMenu env fuel m ins = (Outcome.processExit s f, rest) →
        s = 0 ∧ f = happyMsg := by
  intro fuel
  induction fuel with
  | zero =>
    intro m ins rest s f h
    simp [runMenu] at h
  | succ n ih =>
    intro m ins rest s f h
    unfold runMenu at h
    rcases hh : handle_user_input m ins with ⟨copt, rest1⟩
    rw [hh] at h
    cases copt with
    | none =>
      dsimp only at h
      simp at h
    | some choice =>
      dsimp only at h
      rcases hs : run_step choice with ⟨s1, f1⟩ | _ | c <;> rw [hs] at h <;> dsimp only at h
      · simp only [Prod.mk.injEq, Outcome.processExit.injEq] at h
        rcases run_step_exit_inv hs with ⟨_, rfl, rfl⟩
        exact ⟨h.1.1.symm, h.1.2.symm⟩
      · simp at h
      · rcases he : execute_option (some c) with _ | t | i | a | _ <;> rw [he] at h <;>
          dsimp only at h
        · simp at h
        · rcases hr : runMenu env n (navigate_to_menu m (env.menuOfType t)) rest1
            with ⟨out2, rest2⟩
          rw [hr] at h
          cases out2 with
          | backToCaller => exact ih m rest2 rest s f h
          | processExit s2 f2 =>
            dsimp only at h
            simp only [Prod.mk.injEq, Outcome.processExit.injEq] at h
            rcases ih _ _ _ _ _ hr with ⟨rfl, rfl⟩
            exact ⟨h.1.1.symm, h.1.2.symm⟩
          | raisedError => simp at h
          | stuck => simp at h
        · rcases hr : runMenu env n (navigate_to_menu m (env.menuOfId i)) rest1
            with ⟨out2, rest2⟩
          rw [hr] at h
          cases out2 with
          | backToCaller => exact ih m rest2 rest s f h
          | processExit s2 f2 =>
            dsimp only at h
            simp only [Prod.mk.injEq, Outcome.processExit.injEq] at h
            rcases ih _ _ _ _ _ hr with ⟨rfl, rfl⟩
            exact ⟨h.1.1.symm, h.1.2.symm⟩
          | raisedError => simp at h
          | stuck => simp at h
        · exact ih m rest1 rest s f h
        · exact ih m rest1 rest s f h

/-- C1: for every menu and every raw input line whose lower-casing is a
navigation token legal for the menu's footer kind, `validate_user_input`
returns that token string itself, even when the option table also maps the
same token to an Option; the option-table entry is never returned in that
case. -/
theorem C1_navigation_wins_over_option_table (m : MenuState) (raw : String)
    (hlegal : (NAVI_OPTIONS m.footer_type).isSome = true)
    (htok : pyLower raw ∈ (NAVI_OPTIONS m.footer_type).getD []) :
    validate_user_input m raw = ValidationResult.nav (pyLower raw) ∧
      ∀ o : MenuOption, m.options.lookup (pyLower raw) = some o →
        validate_user_input m raw ≠ ValidationResult.opt o := by
  have h1 : validate_user_input m raw = ValidationResult.nav (pyLower raw) := by
    unfold validate_user_input
    simp [hlegal, htok]
  exact ⟨h1, fun o _ hbad => by rw [h1] at hbad; cases hbad⟩

/-- Witness for C1 on a concrete menu whose option table maps the back token
"b" to a business option while the back-only footer makes "b" a legal
navigation token: input "B" resolves to the navigation string. -/
theorem C1_navigation_wins_over_option_table_witness :
    validate_user_input
      ⟨1, [("b", MenuOption.callable 7)], Option.none, FooterType.BACK, Option.none, true⟩
      "B" = ValidationResult.nav (pyLower "B") :=
  (C1_navigation_wins_over_option_table
    ⟨1, [("b", MenuOption.callable 7)], Option.none, FooterType.BACK, Option.none, true⟩
    "B" (by decide) (by decide)).1

/-- C2 counterexample: a menu whose option table maps the empty string itself
to an option. The empty input is not a legal navigation token for the
back-only footer and a default option (callable 1) is configured, yet
`validate_user_input` returns the table entry (callable 0), not the default:
line 150's `option == ""` comparison is `False` for an Option value, so the
default branch is skipped and line 155 returns the entry. -/
theorem C2_empty_string_key_counterexample :
    (("" ∈ (NAVI_OPTIONS FooterType.BACK).getD []) = False) ∧
    validate_user_input
      ⟨2, [("", MenuOption.callable 0)], some (MenuOption.callable 1), FooterType.BACK,
        Option.none, true⟩
      "" = ValidationResult.opt (MenuOption.callable 0) ∧
    ValidationResult.opt (MenuOption.callable 0) ≠
      ValidationResult.opt (MenuOption.callable 1) := by
  refine ⟨by decide, by decide, by decide⟩

/-- C2 (amended): for every menu whose empty-string input is not a legal
navigation token and whose option table has no entry keyed by the empty
string: if the input is empty and a default option is configured,
`validate_user_input` returns exactly that default option; if the input is
empty and no default option is configured, it returns None. -/
theorem C2_empty_input_resolves_to_default (m : MenuState)
    (hnav : ¬ ("" ∈ (NAVI_OPTIONS m.footer_type).getD []))
    (hkey : m.options.lookup "" = Option.none) :
    (∀ d : MenuOption, m.default_option = some d →
      validate_user_input m "" = ValidationResult.opt d) ∧
    (m.default_option = Option.none →
      validate_user_input m "" = ValidationResult.none) := by
  have hlow : pyLower "" = "" := by decide
  have h1 : validate_user_input m "" = defaultToResult m.default_option := by
    unfold validate_user_input
    simp [hlow, hkey, hnav]
  constructor
  · intro d hd
    rw [h1, hd]
    rfl
  · intro hd
    rw [h1, hd]
    rfl

/-- Witness for C2 (amended) on a concrete menu with a configured default and
no empty-string key: the empty input resolves to the default option. -/
theorem C2_empty_input_resolves_to_default_witness :
    validate_user_input
      ⟨2, [("3", MenuOption.callable 0)], some (MenuOption.callable 1), FooterType.BACK,
        Option.none, true⟩
      "" = ValidationResult.opt (MenuOption.callable 1) :=
  (C2_empty_input_resolves_to_default
    ⟨2, [("3", MenuOption.callable 0)], some (MenuOption.callable 1), FooterType.BACK,
      Option.none, true⟩
    (by decide) (by decide)).1 (MenuOption.callable 1) rfl

/-- C3 (failing input for the code_bug): on a back-only menu with option table
mapping only "1" and a configured default option, the non-empty input "x" —
neither a legal navigation token nor an option-table key — resolves to the
configured default option instead of None: the guard on line 150 parses as
`option is None or (option == "" and default is not None)` and fires on
`option is None` alone, contradicting both the claim and the code's own
comment on line 149, which restricts the default to empty input. -/
theorem C3_unmatched_input_returns_default :
    validate_user_input
      ⟨3, [("1", MenuOption.callable 0)], some (MenuOption.callable 1), FooterType.BACK,
        Option.none, true⟩
      "x" = ValidationResult.opt (MenuOption.callable 1) ∧
    ValidationResult.opt (MenuOption.callable 1) ≠ ValidationResult.none := by
  refine ⟨by decide, by decide⟩

/-- C7: `execute_option` raises NotImplementedError exactly when handed an
absent Option, and that branch is unreachable for anything delivered by
`handle_user_input`, which only returns values `validate_user_input` resolved
to a non-absent result. -/
theorem C7_execute_none_raises_and_is_unreachable (m : MenuState)
    (ins rest : List String) (c : ValidatedInput) :
    execute_option Option.none = ExecEffect.raiseNotImplemented ∧
    (handle_user_input m ins = (some c, rest) →
      execute_option (some c) ≠ ExecEffect.raiseNotImplemented) := by
  refine ⟨rfl, fun _ hbad => ?_⟩
  rcases c with s | o
  · cases hbad
  · rcases o with a | t | i <;> cases hbad

/-- Witness for C7: a concrete handled input ("3" mapped to an action) on
which `execute_option` dispatches rather than raising. -/
theorem C7_execute_none_raises_and_is_unreachable_witness :
    execute_option Option.none = ExecEffect.raiseNotImplemented ∧
    execute_option (some (ValidatedInput.opt (MenuOption.callable 3))) ≠
      ExecEffect.raiseNotImplemented := by
  have h := C7_execute_none_raises_and_is_unreachable
    ⟨4, [("3", MenuOption.callable 3)], Option.none, FooterType.BACK, Option.none, true⟩
    ["3"] [] (ValidatedInput.opt (MenuOption.callable 3))
  exact ⟨h.1, h.2 (by decide)⟩

/-- C8: instantiating the abstract base menu type directly always fails with
an error and never yields an instance, while any concrete subclass that
implements the abstract hook — in particular `AdvancedMenu` — constructs
successfully. -/
theorem C8_abstract_base_cannot_be_instantiated (c : MenuClass) :
    (∃ e : String, instantiateMenuClass BaseMenuClass = Except.error e) ∧
    (c.isAbstractBase = false → c.implementsPrintMenu = true →
      instantiateMenuClass c = Except.ok ()) ∧
    instantiateMenuClass AdvancedMenuClass = Except.ok () := by
  refine ⟨⟨"BaseMenu cannot be instantiated directly.", rfl⟩, ?_, rfl⟩
  intro h1 h2
  unfold instantiateMenuClass
  rw [h1, h2]
  rfl

/-- Witness for C8 at the two concrete classes of the excerpt: the base class
errors, `AdvancedMenu` constructs. -/
theorem C8_abstract_base_cannot_be_instantiated_witness :
    (∃ e : String, instantiateMenuClass BaseMenuClass = Except.error e) ∧
    instantiateMenuClass AdvancedMenuClass = Except.ok () := by
  have h := C8_abstract_base_cannot_be_instantiated AdvancedMenuClass
  exact ⟨h.1, h.2.1 rfl rfl⟩

/-- C9: `print_footer` renders exactly the canned footer keyed by each of the
three recognized footer kinds, and fails with the NotImplemented-class error
for any other footer kind value. -/
theorem C9_print_footer_renders_or_raises (ft : FooterType) :
    print_footer FooterType.QUIT = Except.ok FooterRender.quitFooter ∧
    print_footer FooterType.BACK = Except.ok FooterRender.backFooter ∧
    print_footer FooterType.BACK_HELP = Except.ok FooterRender.backHelpFooter ∧
    (ft ≠ FooterType.QUIT → ft ≠ FooterType.BACK → ft ≠ FooterType.BACK_HELP →
      ∃ e : String, print_footer ft = Except.error e) := by
  refine ⟨rfl, rfl, rfl, ?_⟩
  intro h1 h2 h3
  cases ft with
  | QUIT => exact absurd rfl h1
  | BACK => exact absurd rfl h2
  | BACK_HELP => exact absurd rfl h3
  | UNRECOGNIZED => exact ⟨"Method for printing footer not implemented.", rfl⟩

/-- Witness for C9 at the unrecognized footer kind: the renderer errors. -/
theorem C9_print_footer_renders_or_raises_witness :
    print_footer FooterType.QUIT = Except.ok FooterRender.quitFooter ∧
    ∃ e : String, print_footer FooterType.UNRECOGNIZED = Except.error e := by
  have h := C9_print_footer_renders_or_raises FooterType.UNRECOGNIZED
  exact ⟨h.1, h.2.2.2 (by decide) (by decide) (by decide)⟩

/-- C4: for every caller menu and every dispatched sub-menu option — supplied
as a menu type to instantiate or as an already-constructed instance — the
state whose run loop is entered is the resolved sub-menu with `previous_menu`
stamped to the calling instance immediately before the loop, overwriting any
value the sub-menu's constructor or class defaults had set. -/
theorem C4_previous_menu_stamped_before_run (env : Env) (self sub : MenuState)
    (t i : Nat) (p0 : Option Nat) (fuel : Nat) (ins1 rest1 ins2 rest2 : List String)
    (htype : handle_user_input self ins1 =
      (some (ValidatedInput.opt (MenuOption.menuType t)), rest1))
    (hinst : handle_user_input self ins2 =
      (some (ValidatedInput.opt (MenuOption.menuInstance i)), rest2)) :
    (navigate_to_menu self sub).previous_menu = some self.id ∧
    navigate_to_menu self { sub with previous_menu := p0 } = navigate_to_menu self sub ∧
    runMenu env (fuel + 1) self ins1 =
      (match runMenu env fuel (navigate_to_menu self (env.menuOfType t)) rest1 with
       | (Outcome.backToCaller, r2) => runMenu env fuel self r2
       | (Outcome.processExit s f, r2) => (Outcome.processExit s f, r2)
       | (Outcome.raisedError, r2) => (Outcome.raisedError, r2)
       | (Outcome.stuck, r2) => (Outcome.stuck, r2)) ∧
    runMenu env (fuel + 1) self ins2 =
      (match runMenu env fuel (navigate_to_menu self (env.menuOfId i)) rest2 with
       | (Outcome.backToCaller, r2) => runMenu env fuel self r2
       | (Outcome.processExit s f, r2) => (Outcome.processExit s f, r2)
       | (Outcome.raisedError, r2) => (Outcome.raisedError, r2)
       | (Outcome.stuck, r2) => (Outcome.stuck, r2)) :=
  ⟨rfl, rfl, runMenu_step_navType env fuel self ins1 rest1 t htype,
    runMenu_step_navInstance env fuel self ins2 rest2 i hinst⟩

/-- Witness for C4: the caller (id 10) stamps itself over the sub-menu's
constructor default 99 for both dispatch shapes, and the nested run then
returns to the caller on "b". -/
theorem C4_previous_menu_stamped_before_run_witness :
    (navigate_to_menu parentMenu subMenuWithDefault).previous_menu = some 10 ∧
    subMenuWithDefault.previous_menu = some 99 ∧
    runMenu demoEnv (1 + 1) parentMenu ["1", "b", "b"] = (Outcome.backToCaller, []) ∧
    runMenu demoEnv (1 + 1) parentMenu ["2", "b", "b"] = (Outcome.backToCaller, []) := by
  have h := C4_previous_menu_stamped_before_run demoEnv parentMenu subMenuWithDefault
    0 5 (some 99) 1 ["1", "b", "b"] ["b", "b"] ["2", "b", "b"] ["b", "b"]
    (by decide) (by decide)
  refine ⟨h.1, by decide, ?_, ?_⟩
  · rw [h.2.2.1]
    decide
  · rw [h.2.2.2]
    decide

/-- C5: the quit choice makes `run` print the farewell message and exit the
process with status 0; a process exit produced at any nesting depth propagates
unchanged through every enclosing run loop, terminating the whole process; and
no other code path terminates the process — the only `run` branch producing an
exit is the one for the string choice "q", and every exit the interpreter can
produce carries status 0 and the farewell message. -/
theorem C5_quit_terminates_whole_process (env : Env) (fuel : Nat) (m0 m : MenuState)
    (ins0 rest0 ins rest rest2 : List String) (t s : Nat) (f : String)
    (hq : handle_user_input m0 ins0 = (some (ValidatedInput.nav "q"), rest0))
    (hdisp : handle_user_input m ins =
      (some (ValidatedInput.opt (MenuOption.menuType t)), rest))
    (hsub : runMenu env fuel (navigate_to_menu m (env.menuOfType t)) rest =
      (Outcome.processExit s f, rest2)) :
    runMenu env (fuel + 1) m0 ins0 = (Outcome.processExit 0 happyMsg, rest0) ∧
    runMenu env (fuel + 1) m ins = (Outcome.processExit s f, rest2) ∧
    s = 0 ∧ f = happyMsg ∧
    run_step (ValidatedInput.nav "q") = StepAct.exitProcess 0 happyMsg ∧
    (∀ (c : ValidatedInput) (s2 : Nat) (f2 : String),
      run_step c = StepAct.exitProcess s2 f2 →
        c = ValidatedInput.nav "q" ∧ s2 = 0 ∧ f2 = happyMsg) ∧
    (∀ (fuel2 : Nat) (m2 : MenuState) (ins2 rest3 : List String) (s2 : Nat) (f2 : String),
      runMenu env fuel2 m2 ins2 = (Outcome.processExit s2 f2, rest3) →
        s2 = 0 ∧ f2 = happyMsg) := by
  obtain ⟨hs0, hf0⟩ :=
    runMenu_exit_inv env fuel (navigate_to_menu m (env.menuOfType t)) rest rest2 s f hsub
  exact ⟨runMenu_step_quit env fuel m0 ins0 rest0 hq,
    runMenu_navType_exit env fuel m ins rest rest2 t s f hdisp hsub,
    hs0, hf0, rfl,
    fun _ _ _ hc => run_step_exit_inv hc,
    fun fuel2 m2 ins2 rest3 s2 f2 hh => runMenu_exit_inv env fuel2 m2 ins2 rest3 s2 f2 hh⟩

/-- Witness for C5: quitting directly in the quit-only sub-menu, and quitting
at depth 2 after navigating into it, both terminate the whole run with status
0 and the farewell message, leaving the unread input behind. -/
theorem C5_quit_terminates_whole_process_witness :
    runMenu quitEnv (1 + 1) quitSubMenu ["q", "x"] = (Outcome.processExit 0 happyMsg, ["x"]) ∧
    runMenu quitEnv (1 + 1) quitParentMenu ["1", "q"] = (Outcome.processExit 0 happyMsg, []) := by
  have h := C5_quit_terminates_whole_process quitEnv 1 quitSubMenu quitParentMenu
    ["q", "x"] ["x"] ["1", "q"] ["q"] [] 0 0 happyMsg
    (by decide) (by decide) (by decide)
  exact ⟨h.1, h.2.1⟩

/-- C6: the back choice makes `run` return to its caller without dispatching
anything; any other resolved Option is passed to `execute_option` and the loop
then continues in the same menu — after an action returns, and after a
dispatched sub-menu comes back, the same menu is redisplayed and input is read
again rather than the loop exiting. -/
theorem C6_back_returns_other_options_loop (env : Env) (fuel : Nat) (m : MenuState)
    (ins1 rest1 ins2 rest2 ins3 rest3 rest4 : List String) (a t : Nat) (o : MenuOption)
    (hback : handle_user_input m ins1 = (some (ValidatedInput.nav "b"), rest1))
    (hcall : handle_user_input m ins2 =
      (some (ValidatedInput.opt (MenuOption.callable a)), rest2))
    (hmenu : handle_user_input m ins3 =
      (some (ValidatedInput.opt (MenuOption.menuType t)), rest3))
    (hsub : runMenu env fuel (navigate_to_menu m (env.menuOfType t)) rest3 =
      (Outcome.backToCaller, rest4)) :
    run_step (ValidatedInput.nav "b") = StepAct.returnToCaller ∧
    runMenu env (fuel + 1) m ins1 = (Outcome.backToCaller, rest1) ∧
    run_step (ValidatedInput.opt o) = StepAct.execute (ValidatedInput.opt o) ∧
    runMenu env (fuel + 1) m ins2 = runMenu env fuel m rest2 ∧
    runMenu env (fuel + 1) m ins3 = runMenu env fuel m rest4 :=
  ⟨rfl, runMenu_step_back env fuel m ins1 rest1 hback, rfl,
    runMenu_step_call env fuel m ins2 rest2 a hcall,
    runMenu_navType_back env fuel m ins3 rest3 rest4 t hmenu hsub⟩

/-- Witness for C6: on a concrete menu, "b" returns to the caller; action "3"
runs and the same menu continues with the remaining input; sub-menu "1"
returns on its own "b" and the caller's loop continues likewise. -/
theorem C6_back_returns_other_options_loop_witness :
    runMenu loopEnv (1 + 1) loopMenu ["b"] = (Outcome.backToCaller, []) ∧
    runMenu loopEnv (1 + 1) loopMenu ["3", "b"] = runMenu loopEnv 1 loopMenu ["b"] ∧
    runMenu loopEnv (1 + 1) loopMenu ["1", "b", "b"] = runMenu loopEnv 1 loopMenu ["b"] := by
  have h := C6_back_returns_other_options_loop loopEnv 1 loopMenu
    ["b"] [] ["3", "b"] ["b"] ["1", "b", "b"] ["b", "b"] ["b"] 3 0 (MenuOption.callable 3)
    (by decide) (by decide) (by decide) (by decide)
  exact ⟨h.2.1, h.2.2.2.1, h.2.2.2.2⟩

/-- C10: a non-absent option that is neither a Menu subclass type, nor a Menu
instance, nor a callable — in this embedding, a plain string such as the help
token forwarded by the run loop — falls through every branch of
`execute_option`, which returns normally without raising and without
dispatching anything. -/
theorem C10_unexpected_option_silently_ignored (s : String) :
    execute_option (some (ValidatedInput.nav s)) = ExecEffect.silentIgnore :=
  rfl

end Kiauh
